import Mathlib

/-!
Verification of the HTML→PPTX conversion engine
(`src/pptx-export-worker/src/services/html_to_pptx.py`).

The development shallowly embeds the Python service: pure helpers become
Lean functions, the loosely-typed HTML tree becomes an inductive document
tree, library collaborators (lenient HTML parser, HTTP fetch, image
decoder, document serializer, policy gate) become components of an
explicit environment record, and the one exception boundary of the
orchestrator (`try`/`except` around canvas building and serialization)
becomes an `Except` value.  Lengths are modelled as exact rationals
measured in inches (`Inches x = x`); whitespace is modelled as the ASCII
whitespace characters.
-/

namespace UFiT

/-! ## Python string primitives -/

/-- ASCII whitespace, the characters matched by Python `\s` and stripped
by `str.strip()` on ASCII input. -/
def isPyWhitespace (c : Char) : Bool :=
  c = ' ' || c = '\t' || c = '\n' || c = '\x0d' || c = '\x0b' || c = '\x0c'

/-- Strip leading and trailing whitespace from a character list. -/
def stripChars (l : List Char) : List Char :=
  ((l.dropWhile isPyWhitespace).reverse.dropWhile isPyWhitespace).reverse

/-- Model of Python `str.strip()`. -/
def pyStrip (s : String) : String := ⟨stripChars s.data⟩

/-- Lower-case one ASCII character (model of `str.lower()` per character). -/
def asciiLowerChar (c : Char) : Char :=
  if 'A' ≤ c ∧ c ≤ 'Z' then Char.ofNat (c.toNat + 32) else c

/-- Model of Python `str.lower()` (ASCII range). -/
def pyLower (s : String) : String := ⟨s.data.map asciiLowerChar⟩

def isDigitChar (c : Char) : Bool := '0' ≤ c && c ≤ '9'

def digitVal (c : Char) : ℕ := c.toNat - '0'.toNat

/-- Numeric value of a digit string (most significant first). -/
def natOfDigits (ds : List Char) : ℕ :=
  ds.foldl (fun a c => 10 * a + digitVal c) 0

def isHexChar (c : Char) : Bool :=
  isDigitChar c || ('a' ≤ c && c ≤ 'f') || ('A' ≤ c && c ≤ 'F')

def hexVal (c : Char) : ℕ :=
  if isDigitChar c then digitVal c
  else if 'a' ≤ c ∧ c ≤ 'f' then c.toNat - 'a'.toNat + 10
  else c.toNat - 'A'.toNat + 10

/-! ## Regex-fragment combinators

The service uses two anchored regular expressions through `re.match`
(match at the start of the string, trailing characters permitted) and one
searching expression through `re.search`.  They are modelled as explicit
prefix parsers over character lists. -/

/-- Consume a literal prefix, returning the rest. -/
def matchLit (lit l : List Char) : Option (List Char) :=
  if lit.isPrefixOf l then some (l.drop lit.length) else none

/-- Consume `\s*`. -/
def dropWs (l : List Char) : List Char := l.dropWhile isPyWhitespace

/-- Consume `\d+` greedily, returning its numeric value and the rest. -/
def takeDigits (l : List Char) : Option (ℕ × List Char) :=
  let ds := l.takeWhile isDigitChar
  if ds.isEmpty then none else some (natOfDigits ds, l.drop ds.length)

/-- A Python exception value: its type name and message. -/
structure PyExc where
  typeName : String
  message : String
deriving DecidableEq, Repr

/-! ## Color extraction (`_extract_rgb_color`, lines 61–100) -/

/-- The python-pptx `RGBColor` value object: an RGB triple.  Instances
are only created through the validating constructor `RGBColor` below
(and the in-range named-color literals of `color_map`), which enforces
the library's 0–255 bound. -/
structure RGB where
  r : ℕ
  g : ℕ
  b : ℕ
deriving DecidableEq, Repr

/-- The `ValueError` raised by the `RGBColor` constructor on an
out-of-range component. -/
def RGBColorValueError : PyExc :=
  ⟨"ValueError", "RGBColor() takes three integer values 0-255"⟩

/-- Model of the python-pptx constructor `RGBColor(r, g, b)`: each
component is validated and a `ValueError` is raised unless all lie in
0–255 (the parsed components are naturals, so only the upper bound can
fail). -/
def RGBColor (r g b : ℕ) : Except PyExc RGB :=
  if r ≤ 255 ∧ g ≤ 255 ∧ b ≤ 255 then .ok ⟨r, g, b⟩
  else .error RGBColorValueError

/-- Prefix parser for `rgb\s*\(\s*(\d+)\s*,\s*(\d+)\s*,\s*(\d+)\s*\)`:
returns the three captured integers and the unconsumed suffix. -/
def rgbParse (l : List Char) : Option ((ℕ × ℕ × ℕ) × List Char) := do
  let l ← matchLit "rgb".data l
  let l := dropWs l
  let l ← matchLit ['('] l
  let l := dropWs l
  let (r, l) ← takeDigits l
  let l := dropWs l
  let l ← matchLit [','] l
  let l := dropWs l
  let (g, l) ← takeDigits l
  let l := dropWs l
  let l ← matchLit [','] l
  let l := dropWs l
  let (b, l) ← takeDigits l
  let l := dropWs l
  let l ← matchLit [')'] l
  pure ((r, g, b), l)

/-- Prefix parser for `#([0-9A-Fa-f]{6})`: the three 2-digit hex bytes and
the unconsumed suffix. -/
def hexParse (l : List Char) : Option ((ℕ × ℕ × ℕ) × List Char) :=
  match l with
  | c :: rest =>
    if c = '#' then
      match rest.take 6 with
      | [h1, h2, h3, h4, h5, h6] =>
        if [h1, h2, h3, h4, h5, h6].all isHexChar then
          some ((16 * hexVal h1 + hexVal h2, 16 * hexVal h3 + hexVal h4,
                 16 * hexVal h5 + hexVal h6), rest.drop 6)
        else none
      | _ => none
    else none
  | [] => none

/-- The fixed named-color table (lines 90–98). -/
def color_map : List (String × RGB) :=
  [("black", ⟨0, 0, 0⟩), ("white", ⟨255, 255, 255⟩), ("red", ⟨255, 0, 0⟩),
   ("green", ⟨0, 128, 0⟩), ("blue", ⟨0, 0, 255⟩), ("gray", ⟨128, 128, 128⟩),
   ("grey", ⟨128, 128, 128⟩)]

/-- Model of `_extract_rgb_color` (lines 61–100): empty string is falsy
and yields no color; then the two `re.match` forms are tried in order
(prefix-anchored, trailing characters ignored), each constructing its
result through the validating `RGBColor` constructor — whose
`ValueError` for out-of-range functional-form components is not caught
here and propagates; finally the lower-cased string is looked up in the
named-color table. -/
def _extract_rgb_color (s : String) : Except PyExc (Option RGB) :=
  if s = "" then .ok none
  else
    match rgbParse s.data with
    | some ((r, g, b), _) =>
      match RGBColor r g b with
      | .ok c => .ok (some c)
      | .error e => .error e
    | none =>
      match hexParse s.data with
      | some ((r, g, b), _) =>
        match RGBColor r g b with
        | .ok c => .ok (some c)
        | .error e => .error e
      | none => .ok (color_map.lookup (pyLower s))

/-! Reference definitions for claim C5, written from the claim's text:
the original reference matches each form against the whole input string,
admits only functional components in `[0, 255]`, and never errors
("returns no color rather than an error"). -/

/-- Reference definition of the claim's three-form color contract: the
functional form (whole string, components in 0–255), the hex form (whole
string), the named table, in order; any other input — including the
empty string — gives no color, never an error. -/
def extractColorRef (s : String) : Option RGB :=
  match rgbParse s.data with
  | some ((r, g, b), []) =>
    if r ≤ 255 ∧ g ≤ 255 ∧ b ≤ 255 then some ⟨r, g, b⟩ else none
  | _ =>
    match hexParse s.data with
    | some ((r, g, b), []) => some ⟨r, g, b⟩
    | _ =>
      if s = "" then none else (color_map.lookup (pyLower s))

/-- Amended reference definition: the functional and hex forms are
matched as prefixes (trailing characters permitted, as the source's
`re.match` calls do); a functional form whose components all lie in
0–255 gives exactly that triple, while an out-of-range component makes
the `RGBColor` constructor raise `ValueError` instead of giving no
color; the hex form's three bytes are inherently in range; otherwise the
named table, and the empty string gives no color. -/
def extractColorRefAmended (s : String) : Except PyExc (Option RGB) :=
  if s = "" then .ok none
  else
    match rgbParse s.data with
    | some ((r, g, b), _) =>
      if r ≤ 255 ∧ g ≤ 255 ∧ b ≤ 255 then .ok (some ⟨r, g, b⟩)
      else .error RGBColorValueError
    | none =>
      match hexParse s.data with
      | some ((r, g, b), _) => .ok (some ⟨r, g, b⟩)
      | none => .ok (color_map.lookup (pyLower s))

/-! ## The document tree and the slide parser (`_parse_html_slide`, lines 102–149)

`BeautifulSoup(html_content, 'html.parser')` is the external lenient
parser: it never fails and yields a tree of elements and text nodes.  The
tree is embedded as a mutual inductive; `find` / `find_all` traverse it
depth-first in document order (an element precedes its descendants), and
`get_text(strip=True)` concatenates the stripped descendant strings. -/

mutual

inductive Node where
  | text (s : String)
  | element (tag : String) (attrs : List (String × String)) (children : NodeList)

inductive NodeList where
  | nil
  | cons (head : Node) (tail : NodeList)

end

mutual

/-- All string descendants of a node, in document order. -/
def nodeStrings : Node → List String
  | .text s => [s]
  | .element _ _ cs => nodeListStrings cs

def nodeListStrings : NodeList → List String
  | .nil => []
  | .cons n ns => nodeStrings n ++ nodeListStrings ns

end

/-- Model of `get_text(strip=True)`: each descendant string is stripped,
strings that strip to nothing are dropped, the rest are concatenated. -/
def getTextStrip (n : Node) : String :=
  String.join (((nodeStrings n).map pyStrip).filter (fun t => t ≠ ""))

mutual

/-- Model of `find_all(tags)` rooted at one node: every element whose tag
is in the set, depth-first in document order. -/
def findAllNode (tags : List String) : Node → List Node
  | .text _ => []
  | .element t a cs =>
    (if tags.contains t then [Node.element t a cs] else []) ++ findAllList tags cs

def findAllList (tags : List String) : NodeList → List Node
  | .nil => []
  | .cons n ns => findAllNode tags n ++ findAllList tags ns

end

/-- `attrs.get(key, default)` on an element's attribute dictionary. -/
def attrGet (attrs : List (String × String)) (k d : String) : String :=
  (attrs.lookup k).getD d

/-- An image reference extracted from an `<img>` element. -/
structure ImageRef where
  src : String
  alt : String
deriving DecidableEq, Repr

/-- The dictionary returned by `_parse_html_slide` (lines 144–149). -/
structure SlideData where
  title : String
  body : String
  images : List ImageRef
  background_color : Option RGB
deriving DecidableEq, Repr

/-- Title extraction (lines 114–118): text of the first `h1`/`h2` in
document order, empty if there is none. -/
def slideTitle (roots : NodeList) : String :=
  match (findAllList ["h1", "h2"] roots).head? with
  | some e => getTextStrip e
  | none => ""

/-- The body selector set of line 122. -/
def bodyTags : List String := ["p", "li", "h3", "h4", "h5", "h6"]

/-- Body-part collection loop (lines 120–125): the stripped text of every
body-selector element, kept when non-empty and different from the title. -/
def body_parts (roots : NodeList) : List String :=
  (findAllList bodyTags roots).foldl
    (fun acc e =>
      let t := getTextStrip e
      if t ≠ "" ∧ t ≠ slideTitle roots then acc ++ [t] else acc) []

/-- Image extraction loop (lines 127–133). -/
def slideImages (roots : NodeList) : List ImageRef :=
  (findAllList ["img"] roots).foldl
    (fun acc n =>
      match n with
      | .element _ attrs _ =>
        let src := attrGet attrs "src" ""
        let alt := attrGet attrs "alt" ""
        if src ≠ "" then acc ++ [⟨src, alt⟩] else acc
      | .text _ => acc) []

/-- Model of `re.search(r'background-color:\s*([^;]+)', style)` matching
at one candidate position (the characters after the literal): `\s*` is
greedy but backtracks so that `[^;]+` can still take at least one
character. -/
def bgMatchAt (tail : List Char) : Option String :=
  let w := tail.takeWhile isPyWhitespace
  let rest := tail.drop w.length
  match rest with
  | c :: _ =>
    if c ≠ ';' then some ⟨rest.takeWhile (fun x => x ≠ ';')⟩
    else
      match w.getLast? with
      | some lc => some ⟨[lc]⟩
      | none => none
  | [] =>
    match w.getLast? with
    | some lc => some ⟨[lc]⟩
    | none => none

/-- Leftmost search for the `background-color` declaration (line 140). -/
def bgSearch : List Char → Option String
  | [] => none
  | l@(_ :: t) =>
    match (if ("background-color:".data).isPrefixOf l then
             bgMatchAt (l.drop "background-color:".length) else none) with
    | some v => some v
    | none => bgSearch t

/-- Background-color extraction, the faithful trace of lines 135–142:
the first `body` element's inline style is searched for a
`background-color` declaration, whose value is passed through
`_extract_rgb_color`; the extractor's `ValueError` (out-of-range
functional components) is not caught here and propagates out of
`_parse_html_slide`. -/
def slideBackgroundE (roots : NodeList) : Except PyExc (Option RGB) :=
  match (findAllList ["body"] roots).head? with
  | some (.element _ attrs _) =>
    let style := attrGet attrs "style" ""
    match bgSearch style.data with
    | some v => _extract_rgb_color v
    | none => .ok none
  | _ => .ok none

/-- The background on the non-raising path of `slideBackgroundE`; the
raising path is recorded by `_parse_html_slide_exc` and would propagate
to the conversion-level `except` handler, not yield a background. -/
def slideBackground (roots : NodeList) : Option RGB :=
  match slideBackgroundE roots with
  | .ok c => c
  | .error _ => none

/-- The exception `_parse_html_slide` raises, when it does: the
`ValueError` of an out-of-range `background-color: rgb(...)`
declaration.  In the source it propagates to `convert_html_to_pptx`'s
`except` handler (the same handler claim C8 is about); the orchestrator
model keeps its single disclosed exception-injection point at
serialization, so this observable records the raise separately instead
of re-threading it. -/
def _parse_html_slide_exc (roots : NodeList) : Option PyExc :=
  match slideBackgroundE roots with
  | .ok _ => none
  | .error e => some e

/-- Model of `_parse_html_slide` applied to the parsed tree: the slide
model returned on the non-raising path (`_parse_html_slide_exc roots =
none`; when that observable is `some e`, the source raises `e` out of
parsing instead of returning a model). -/
def _parse_html_slide (roots : NodeList) : SlideData :=
  ⟨slideTitle roots, String.intercalate "\n" (body_parts roots),
   slideImages roots, slideBackground roots⟩

/-! Reference definitions for claims C4 and C10, written from the
specification text. -/

/-- The stripped texts of all body-selector elements that differ from the
extracted title (the only exclusion the specification states). -/
def nonTitleTexts (roots : NodeList) : List String :=
  ((findAllList bodyTags roots).map getTextStrip).filter
    (fun t => t ≠ slideTitle roots)

/-- Body as the specification words it for claim C4: newline-join of the
trimmed texts of all body-selector elements, excluding only those whose
text equals the title. -/
def specBody (roots : NodeList) : String :=
  String.intercalate "\n" (nonTitleTexts roots)

/-- Body as amended: additionally excluding elements whose trimmed text
is empty. -/
def specBodyAmended (roots : NodeList) : String :=
  String.intercalate "\n" ((nonTitleTexts roots).filter (fun t => t ≠ ""))

/-! ## Numeric parsing and service configuration (`__init__`, lines 32–59)

`float(...)` and `int(...)` are modelled on finite decimal literals:
optional surrounding whitespace, optional sign, digits (with an optional
fraction and exponent for `float`); anything else raises `ValueError`. -/

/-- Optional exponent suffix of a float literal; the rest of the string
must be consumed. -/
def parseExpPart (l : List Char) : Option ℤ :=
  match l with
  | [] => some 0
  | c :: t =>
    if c = 'e' ∨ c = 'E' then
      let p : ℤ × List Char :=
        match t with
        | '+' :: r => (1, r)
        | '-' :: r => (-1, r)
        | _ => (1, t)
      let ds := p.2.takeWhile isDigitChar
      if ds.isEmpty then none
      else if (p.2.drop ds.length).isEmpty then some (p.1 * natOfDigits ds)
      else none
    else none

/-- Model of Python `float(s)` on finite decimal literals (`infinity` and
`nan` spellings are out of the modelled fragment). -/
def pyFloat? (s : String) : Option ℚ :=
  let l0 := stripChars s.data
  let p : ℚ × List Char :=
    match l0 with
    | '+' :: t => (1, t)
    | '-' :: t => (-1, t)
    | _ => (1, l0)
  let l := p.2
  let ip := l.takeWhile isDigitChar
  let l1 := l.drop ip.length
  match l1 with
  | '.' :: t =>
    let fp := t.takeWhile isDigitChar
    let l2 := t.drop fp.length
    if ip.isEmpty ∧ fp.isEmpty then none
    else
      match parseExpPart l2 with
      | some e =>
        some (p.1 * ((natOfDigits ip : ℚ) + (natOfDigits fp : ℚ) / 10 ^ fp.length)
                * (10 : ℚ) ^ e)
      | none => none
  | _ =>
    if ip.isEmpty then none
    else
      match parseExpPart l1 with
      | some e => some (p.1 * (natOfDigits ip : ℚ) * (10 : ℚ) ^ e)
      | none => none

/-- Model of Python `int(s)` for base 10. -/
def pyInt? (s : String) : Option ℤ :=
  let l0 := stripChars s.data
  let p : ℤ × List Char :=
    match l0 with
    | '+' :: t => (1, t)
    | '-' :: t => (-1, t)
    | _ => (1, l0)
  if p.2 ≠ [] ∧ p.2.all isDigitChar then some (p.1 * natOfDigits p.2) else none

/-- The `ValueError` raised by `int()` on a malformed literal. -/
def pyValueError : PyExc :=
  ⟨"ValueError", "invalid literal for int() with base 10"⟩

/-- `int(s)` as a fallible computation. -/
def pyIntE (s : String) : Except PyExc ℤ :=
  match pyInt? s with
  | some n => .ok n
  | none => .error pyValueError

/-- Lengths are exact rationals in inches: `Inches x = x`. -/
def Inches (q : ℚ) : ℚ := q

/-- Model of `_parse_dimension` (lines 54–59): `float` parse, falling
back to `Inches(10)` on `ValueError`. -/
def _parse_dimension (s : String) : ℚ :=
  match pyFloat? s with
  | some q => Inches q
  | none => Inches 10

/-- The configuration loaded by `HTMLToPPTXService.__init__`. -/
structure Config where
  slide_width : ℚ
  slide_height : ℚ
  default_font : String
  title_font_size : ℤ
  body_font_size : ℤ
  image_quality : ℤ
  max_image_width : ℚ
  max_image_height : ℚ
  request_timeout : ℤ
deriving DecidableEq, Repr

/-- The process environment-variable mapping (`os.environ`). -/
def EnvVars : Type := String → Option String

/-- `os.environ.get(key, default)`. -/
def envGetD (ev : EnvVars) (k d : String) : String := (ev k).getD d

/-- Model of `HTMLToPPTXService.__init__` (lines 32–52): dimension keys
go through `_parse_dimension` (which cannot fail); the four `int(...)`
keys raise `ValueError` on a malformed value, failing construction. -/
def serviceInit (ev : EnvVars) : Except PyExc Config :=
  let slide_width := _parse_dimension (envGetD ev "PPTX_SLIDE_WIDTH" "10")
  let slide_height := _parse_dimension (envGetD ev "PPTX_SLIDE_HEIGHT" "7.5")
  let default_font := envGetD ev "PPTX_DEFAULT_FONT" "メイリオ"
  match pyIntE (envGetD ev "PPTX_TITLE_FONT_SIZE" "44") with
  | .error e => .error e
  | .ok title_font_size =>
    match pyIntE (envGetD ev "PPTX_BODY_FONT_SIZE" "28") with
    | .error e => .error e
    | .ok body_font_size =>
      match pyIntE (envGetD ev "PPTX_IMAGE_QUALITY" "95") with
      | .error e => .error e
      | .ok image_quality =>
        let max_image_width := _parse_dimension (envGetD ev "PPTX_MAX_IMAGE_WIDTH" "8")
        let max_image_height := _parse_dimension (envGetD ev "PPTX_MAX_IMAGE_HEIGHT" "5")
        match pyIntE (envGetD ev "HTTP_TIMEOUT" "30") with
        | .error e => .error e
        | .ok request_timeout =>
          .ok ⟨slide_width, slide_height, default_font, title_font_size,
               body_font_size, image_quality, max_image_width,
               max_image_height, request_timeout⟩

/-! ## Canvas model and the rendering environment

The python-pptx canvas, the network, the image decoder and the external
policy gate are collaborators of the service; they are modelled as an
explicit environment record.  A serialized byte payload is a list of
naturals. -/

abbrev Bytes : Type := List ℕ

/-- A decoded image: its pixel size (`pil_image.size`). -/
structure PILImage where
  width : ℕ
  height : ℕ
deriving DecidableEq, Repr

/-- Outcome of `requests.get`: a response whose `raise_for_status` either
passes (2xx, with a body) or raises, or a raised network error
(timeout, connection failure, ...). -/
inductive FetchResult where
  | okResponse (body : Bytes)
  | errorStatus
  | networkError
deriving DecidableEq

/-- The policy gate's verdict (`check_constitutional_compliance`). -/
structure ComplianceResult where
  compliant : Bool
  score : ℚ
deriving DecidableEq, Repr

/-- The gate's diagnostic summary (`get_compliance_summary`), an opaque
string-keyed mapping. -/
def ComplianceSummary : Type := List (String × String)

/-- The caller-supplied metadata mapping; `none` in a field stands for a
key that is absent (or bound to `None`). -/
structure Metadata where
  title : Option String
  author : Option String
  subject : Option String
deriving DecidableEq, Repr

/-- A positioned slide shape. -/
structure Rect where
  left : ℚ
  top : ℚ
  width : ℚ
  height : ℚ
deriving DecidableEq, Repr

inductive Shape where
  | textbox (r : Rect) (text : String) (fontName : String) (fontSize : ℤ)
      (bold : Bool)
  | picture (r : Rect)
deriving DecidableEq, Repr

/-- One slide of the canvas. -/
structure Slide where
  background : Option RGB
  shapes : List Shape
deriving DecidableEq, Repr

/-- The document's core properties (`prs.core_properties`); a `none`
field was never assigned. -/
structure CoreProps where
  title : Option String
  author : Option String
  subject : Option String
deriving DecidableEq, Repr

/-- The in-memory canvas (`Presentation`). -/
structure Pres where
  slide_width : ℚ
  slide_height : ℚ
  core_properties : CoreProps
  slides : List Slide
deriving DecidableEq, Repr

/-- The external collaborators of one conversion request. -/
structure Env where
  /-- `BeautifulSoup(html, 'html.parser')`: the lenient parser, total. -/
  parseHtml : String → NodeList
  /-- `check_constitutional_compliance(action, data, audit_context)`;
  `data` is the slide count. -/
  checkCompliance : String → ℕ → Metadata → ComplianceResult
  /-- `get_compliance_summary`. -/
  complianceSummary : ComplianceResult → ComplianceSummary
  /-- `requests.get(url, timeout)`. -/
  fetch : String → FetchResult
  /-- `Image.open` on a response body; `none` when decoding raises. -/
  decode : Bytes → Option PILImage
  /-- `prs.save` serialization payload. -/
  serialize : Pres → Bytes
  /-- Whether `prs.save` completes or raises; the single exception
  injection point of the `try` block. -/
  saveResult : Except PyExc Unit
  /-- Wall-clock seconds between the two `datetime.utcnow()` calls. -/
  elapsedSeconds : ℚ
  /-- `end_time.isoformat()`. -/
  timestamp : String

/-- Model of `_download_image` (lines 151–167): any fetch failure,
non-success status or decode failure yields `None`. -/
def _download_image (env : Env) (url : String) : Option PILImage :=
  match env.fetch url with
  | .okResponse body => env.decode body
  | .errorStatus => none
  | .networkError => none

/-- The fit-and-placement computation for one decoded image
(lines 244–263), in inches. -/
def imageShape (cfg : Config) (w h : ℕ) : Rect :=
  let aspect_ratio : ℚ := (w : ℚ) / (h : ℚ)
  if aspect_ratio > 1 then
    let insert_width := min cfg.max_image_width (cfg.slide_width - Inches 1)
    let insert_height := insert_width / aspect_ratio
    ⟨(cfg.slide_width - insert_width) / 2,
     cfg.slide_height - insert_height - Inches (1/2), insert_width, insert_height⟩
  else
    let insert_height := min cfg.max_image_height (cfg.slide_height - Inches 3)
    let insert_width := insert_height * aspect_ratio
    ⟨(cfg.slide_width - insert_width) / 2,
     cfg.slide_height - insert_height - Inches (1/2), insert_width, insert_height⟩

/-- The shapes placed on one slide (lines 192–271): title box when the
title is non-empty, body box when the body is non-empty, then one picture
per image reference that resolves, in order; unresolved images are
skipped. -/
def slideShapes (cfg : Config) (env : Env) (data : SlideData) : List Shape :=
  (if data.title ≠ "" then
    [Shape.textbox ⟨Inches (1/2), Inches (1/2), cfg.slide_width - Inches 1,
       Inches (3/2)⟩ data.title cfg.default_font cfg.title_font_size true]
   else [])
  ++ (if data.body ≠ "" then
    let body_top_offset := if data.title ≠ "" then Inches (5/2) else Inches (1/2)
    [Shape.textbox ⟨Inches (1/2), body_top_offset, cfg.slide_width - Inches 1,
       cfg.slide_height - body_top_offset - Inches (1/2)⟩ data.body
       cfg.default_font cfg.body_font_size false]
   else [])
  ++ data.images.foldl
       (fun acc ref =>
         match _download_image env ref.src with
         | none => acc
         | some img => acc ++ [Shape.picture (imageShape cfg img.width img.height)])
       []

/-- The slide added by `_add_slide_content` for one parsed model. -/
def mkSlide (cfg : Config) (env : Env) (data : SlideData) : Slide :=
  ⟨data.background_color, slideShapes cfg env data⟩

/-- Model of `_add_slide_content` (lines 169–271): appends exactly one
slide to the canvas. -/
def _add_slide_content (cfg : Config) (env : Env) (prs : Pres)
    (data : SlideData) : Pres :=
  { prs with slides := prs.slides ++ [mkSlide cfg env data] }

/-- Truthy application of one metadata field (`if metadata.get(k):`):
an absent field or an empty-string value is skipped. -/
def appliedField (v : Option String) : Option String :=
  match v with
  | some s => if s ≠ "" then some s else none
  | none => none

/-- The canvas built by the `try` block before serialization
(lines 308–325): sized per configuration, metadata fields applied when
truthy (a `None`/empty mapping skips the whole block, which leaves the
same fields unset), then one slide parsed and rendered per input
fragment, in input order. -/
def buildDocument (cfg : Config) (env : Env) (slides_html : List String)
    (metadata : Option Metadata) : Pres :=
  let md := metadata.getD ⟨none, none, none⟩
  let core : CoreProps :=
    ⟨appliedField md.title, appliedField md.author, appliedField md.subject⟩
  slides_html.foldl
    (fun prs h => _add_slide_content cfg env prs (_parse_html_slide (env.parseHtml h)))
    ⟨cfg.slide_width, cfg.slide_height, core, []⟩

/-! ## The orchestrator (`convert_html_to_pptx`, lines 273–356) -/

/-- Observable processing steps, recorded to state what the orchestrator
did before returning. -/
inductive Event where
  | policyGateChecked
  | canvasCreated
  | slideParsed
  | slideRendered
  | serialized
deriving DecidableEq, Repr

/-- The `details` member of a failure result: the gate's summary for a
compliance failure, the exception's type name for a conversion failure. -/
inductive ErrDetails where
  | complianceSummaryOf (s : ComplianceSummary)
  | exception_type (n : String)

/-- A failure result's `error` dictionary. -/
structure ConvError where
  message : String
  code : String
  details : ErrDetails

/-- A success result's `data` dictionary. -/
structure SuccessData where
  buffer : Bytes
  slides_count : ℕ
  file_size : ℕ
  processing_time : ℚ
  constitutional_compliance : ℚ
  timestamp : String

/-- The structured result dictionary: `success` is `True` with `data`, or
`False` with `error`. -/
inductive ConvResult where
  | success (d : SuccessData)
  | failure (e : ConvError)

/-- The event trace of the per-slide loop. -/
def slideEvents (slides_html : List String) : List Event :=
  slides_html.foldl (fun acc _ => acc ++ [.slideParsed, .slideRendered]) []

/-- Model of `convert_html_to_pptx` (lines 273–356), returning the
result together with the trace of processing steps taken before
returning. -/
def convert_html_to_pptx (cfg : Config) (env : Env)
    (slides_html : List String) (metadata : Option Metadata) :
    ConvResult × List Event :=
  let compliance_check :=
    env.checkCompliance "convert_html_to_pptx" slides_html.length
      (metadata.getD ⟨none, none, none⟩)
  if compliance_check.compliant = false then
    (.failure ⟨"Constitutional AI compliance check failed",
       "COMPLIANCE_VIOLATION",
       .complianceSummaryOf (env.complianceSummary compliance_check)⟩,
     [.policyGateChecked])
  else
    let prs := buildDocument cfg env slides_html metadata
    match env.saveResult with
    | .error e =>
      (.failure ⟨e.message, "CONVERSION_ERROR", .exception_type e.typeName⟩,
       [.policyGateChecked, .canvasCreated] ++ slideEvents slides_html)
    | .ok _ =>
      let pptx_bytes := env.serialize prs
      (.success ⟨pptx_bytes, slides_html.length, pptx_bytes.length,
         env.elapsedSeconds, compliance_check.score, env.timestamp⟩,
       [.policyGateChecked, .canvasCreated] ++ slideEvents slides_html
         ++ [.serialized])

/-! ## Specification-side first-match search

The specification words the title rule as "the first heading-level-1 or
heading-level-2 element encountered, depth-first in document order"; that
search is defined directly and later proved to agree with taking the head
of the `find_all` result, which is what `soup.find` does. -/

mutual

def findFirstNode (tags : List String) : Node → Option Node
  | .text _ => none
  | .element t a cs =>
    if tags.contains t then some (.element t a cs) else findFirstList tags cs

def findFirstList (tags : List String) : NodeList → Option Node
  | .nil => none
  | .cons n ns =>
    match findFirstNode tags n with
    | some e => some e
    | none => findFirstList tags ns

end

/-- Title as the specification words it: text of the first `h1`/`h2`
found depth-first, empty when there is none. -/
def specTitle (roots : NodeList) : String :=
  match findFirstList ["h1", "h2"] roots with
  | some e => getTextStrip e
  | none => ""

/-! ## Concrete fixtures used by counterexamples and witnesses -/

/-- The tree of the fragment `<h1>T</h1><p></p><p>B</p>`. -/
def roots0 : NodeList :=
  .cons (.element "h1" [] (.cons (.text "T") .nil))
    (.cons (.element "p" [] .nil)
      (.cons (.element "p" [] (.cons (.text "B") .nil)) .nil))

/-- A concrete configuration holding the documented defaults. -/
def cfgW : Config := ⟨10, 15/2, "メイリオ", 44, 28, 95, 8, 5, 30⟩

/-- A concrete benign environment: compliant gate, failing network,
successful serialization. -/
def envW : Env where
  parseHtml _ := .nil
  checkCompliance _ _ _ := ⟨true, 1⟩
  complianceSummary _ := []
  fetch _ := .networkError
  decode _ := none
  serialize _ := []
  saveResult := .ok ()
  elapsedSeconds := 0
  timestamp := "2026-01-01T00:00:00"

/-- `envW` with a rejecting policy gate. -/
def envNC : Env := { envW with checkCompliance := fun _ _ _ => ⟨false, 1/2⟩ }

/-- A concrete exception raised by serialization. -/
def excW : PyExc := ⟨"OSError", "save failed"⟩

/-- `envW` whose `prs.save` raises `excW`. -/
def envErr : Env := { envW with saveResult := .error excW }

/-- A parsed slide with one image reference whose fetch fails in `envW`. -/
def dataW : SlideData := ⟨"T", "B", [⟨"bad", "alt"⟩], none⟩

/-- An environment-variable mapping whose slide-height value is
malformed and which sets nothing else. -/
def envVarsBadHeight : EnvVars :=
  fun k => if k = "PPTX_SLIDE_HEIGHT" then some "abc" else none

/-- Point update of an environment-variable mapping. -/
def updateEv (ev : EnvVars) (k v : String) : EnvVars :=
  fun k2 => if k2 = k then some v else ev k2

/-! ## Helper lemmas -/

mutual

theorem findFirstNode_eq_head (tags : List String) :
    ∀ n : Node, findFirstNode tags n = (findAllNode tags n).head?
  | .text _ => rfl
  | .element t a cs => by
    rw [findFirstNode, findAllNode]
    by_cases h : tags.contains t = true
    · rw [if_pos h, if_pos h]
      rfl
    · rw [if_neg h, if_neg h, List.nil_append]
      exact findFirstList_eq_head tags cs

theorem findFirstList_eq_head (tags : List String) :
    ∀ l : NodeList, findFirstList tags l = (findAllList tags l).head?
  | .nil => rfl
  | .cons n ns => by
    rw [findFirstList, findAllList]
    rw [findFirstNode_eq_head tags n, findFirstList_eq_head tags ns]
    cases (findAllNode tags n) with
    | nil => simp
    | cons x xs => simp

end

theorem specTitle_eq_slideTitle (roots : NodeList) :
    specTitle roots = slideTitle roots := by
  rw [specTitle, slideTitle, findFirstList_eq_head]

/-- The body-collection fold is a filtered map. -/
theorem foldl_collect_eq_filter (title : String) :
    ∀ (l : List Node) (acc : List String),
      l.foldl
        (fun acc e =>
          let t := getTextStrip e
          if t ≠ "" ∧ t ≠ title then acc ++ [t] else acc) acc
        = acc ++ (l.map getTextStrip).filter (fun t => t ≠ "" ∧ t ≠ title)
  | [], acc => by simp
  | x :: xs, acc => by
    rw [List.foldl_cons, List.map_cons, List.filter_cons]
    rw [foldl_collect_eq_filter title xs]
    by_cases h : getTextStrip x ≠ "" ∧ getTextStrip x ≠ title
    · simp [h]
    · simp [h]

theorem body_parts_eq_filter (roots : NodeList) :
    body_parts roots
      = ((findAllList bodyTags roots).map getTextStrip).filter
          (fun t => t ≠ "" ∧ t ≠ slideTitle roots) := by
  rw [body_parts, foldl_collect_eq_filter]
  simp

/-- Appending one slide touches nothing but the slide sequence. -/
theorem docFold_slides (cfg : Config) (env : Env) :
    ∀ (l : List String) (init : Pres),
      (l.foldl
        (fun prs h =>
          _add_slide_content cfg env prs (_parse_html_slide (env.parseHtml h)))
        init).slides
      = init.slides
        ++ l.map (fun h => mkSlide cfg env (_parse_html_slide (env.parseHtml h)))
  | [], init => by simp
  | x :: xs, init => by
    rw [List.foldl_cons, docFold_slides cfg env xs]
    simp [_add_slide_content]

theorem docFold_core (cfg : Config) (env : Env) :
    ∀ (l : List String) (init : Pres),
      (l.foldl
        (fun prs h =>
          _add_slide_content cfg env prs (_parse_html_slide (env.parseHtml h)))
        init).core_properties
      = init.core_properties
  | [], _ => rfl
  | x :: xs, init => by
    rw [List.foldl_cons, docFold_core cfg env xs]
    rfl

theorem buildDocument_slides (cfg : Config) (env : Env)
    (slides_html : List String) (metadata : Option Metadata) :
    (buildDocument cfg env slides_html metadata).slides
      = slides_html.map
          (fun h => mkSlide cfg env (_parse_html_slide (env.parseHtml h))) := by
  rw [buildDocument, docFold_slides]
  simp

theorem buildDocument_core (cfg : Config) (env : Env)
    (slides_html : List String) (metadata : Option Metadata) :
    (buildDocument cfg env slides_html metadata).core_properties
      = ⟨appliedField (metadata.getD ⟨none, none, none⟩).title,
         appliedField (metadata.getD ⟨none, none, none⟩).author,
         appliedField (metadata.getD ⟨none, none, none⟩).subject⟩ := by
  rw [buildDocument, docFold_core]

/-- Shape of the result when the gate passes and serialization
completes. -/
theorem convert_ok (cfg : Config) (env : Env) (slides_html : List String)
    (metadata : Option Metadata)
    (hc : (env.checkCompliance "convert_html_to_pptx" slides_html.length
            (metadata.getD ⟨none, none, none⟩)).compliant = true)
    (hs : env.saveResult = .ok ()) :
    convert_html_to_pptx cfg env slides_html metadata
      = (.success ⟨env.serialize (buildDocument cfg env slides_html metadata),
           slides_html.length,
           (env.serialize (buildDocument cfg env slides_html metadata)).length,
           env.elapsedSeconds,
           (env.checkCompliance "convert_html_to_pptx" slides_html.length
             (metadata.getD ⟨none, none, none⟩)).score,
           env.timestamp⟩,
         [.policyGateChecked, .canvasCreated] ++ slideEvents slides_html
           ++ [.serialized]) := by
  rw [convert_html_to_pptx, hc, hs]
  simp

/-! ## The claims -/

/-- C1: when the policy gate reports compliant and no exception occurs,
`convert_html_to_pptx` returns a success result whose `slides_count`
equals the length of the input list, and the produced document contains
exactly one slide per input fragment, in the caller-supplied order; the
empty input list is the `slides_count = 0`, zero-slide instance. -/
theorem claim_c1_success_count_and_order (cfg : Config) (env : Env)
    (slides_html : List String) (metadata : Option Metadata)
    (hc : (env.checkCompliance "convert_html_to_pptx" slides_html.length
            (metadata.getD ⟨none, none, none⟩)).compliant = true)
    (hs : env.saveResult = .ok ()) :
    ∃ d, (convert_html_to_pptx cfg env slides_html metadata).1 = .success d
      ∧ d.slides_count = slides_html.length
      ∧ (buildDocument cfg env slides_html metadata).slides
          = slides_html.map
              (fun h => mkSlide cfg env (_parse_html_slide (env.parseHtml h)))
      ∧ (buildDocument cfg env slides_html metadata).slides.length
          = slides_html.length := by
  have h := convert_ok cfg env slides_html metadata hc hs
  refine ⟨_, by rw [h], rfl, buildDocument_slides cfg env slides_html metadata, ?_⟩
  rw [buildDocument_slides]
  exact List.length_map _ _

/-- C1 witness: a compliant gate and the empty input list produce a
success result with `slides_count = 0` and a zero-slide document. -/
theorem claim_c1_witness :
    ((envW.checkCompliance "convert_html_to_pptx" ([] : List String).length
        ((none : Option Metadata).getD ⟨none, none, none⟩)).compliant = true)
    ∧ envW.saveResult = .ok ()
    ∧ ∃ d, (convert_html_to_pptx cfgW envW [] none).1 = .success d
        ∧ d.slides_count = 0
        ∧ (buildDocument cfgW envW [] none).slides = []
        ∧ (buildDocument cfgW envW [] none).slides.length = 0 :=
  ⟨rfl, rfl, claim_c1_success_count_and_order cfgW envW [] none rfl rfl⟩

/-- C2: a rejecting policy gate short-circuits the conversion: the result
is a failure with code `COMPLIANCE_VIOLATION` carrying the gate's
diagnostic summary, and the only step taken before returning is the gate
check itself — no canvas is created and no slide is parsed or rendered. -/
theorem claim_c2_compliance_short_circuit (cfg : Config) (env : Env)
    (slides_html : List String) (metadata : Option Metadata)
    (hc : (env.checkCompliance "convert_html_to_pptx" slides_html.length
            (metadata.getD ⟨none, none, none⟩)).compliant = false) :
    convert_html_to_pptx cfg env slides_html metadata
      = (.failure ⟨"Constitutional AI compliance check failed",
           "COMPLIANCE_VIOLATION",
           .complianceSummaryOf (env.complianceSummary
             (env.checkCompliance "convert_html_to_pptx" slides_html.length
               (metadata.getD ⟨none, none, none⟩)))⟩,
         [.policyGateChecked]) := by
  simp [convert_html_to_pptx, hc]

/-- C2 witness: a concrete rejecting gate yields the compliance failure
with the gate-check-only trace. -/
theorem claim_c2_witness :
    ((envNC.checkCompliance "convert_html_to_pptx" (["<p>x</p>"] : List String).length
        ((none : Option Metadata).getD ⟨none, none, none⟩)).compliant = false)
    ∧ convert_html_to_pptx cfgW envNC ["<p>x</p>"] none
      = (.failure ⟨"Constitutional AI compliance check failed",
           "COMPLIANCE_VIOLATION",
           .complianceSummaryOf (envNC.complianceSummary
             (envNC.checkCompliance "convert_html_to_pptx" 1 ⟨none, none, none⟩))⟩,
         [.policyGateChecked]) :=
  ⟨rfl, claim_c2_compliance_short_circuit cfgW envNC ["<p>x</p>"] none rfl⟩

/-- C3: an image whose fetch fails, returns a non-success status, or
fails to decode resolves to `None`; the containing slide is rendered as
if that reference were absent (remaining text and images intact); and
the whole conversion still succeeds with the expected slide count. -/
theorem claim_c3_image_failures_local (cfg : Config) (env : Env) :
    (∀ url, (env.fetch url = .networkError ∨ env.fetch url = .errorStatus
        ∨ ∃ body, env.fetch url = .okResponse body ∧ env.decode body = none) →
      _download_image env url = none)
    ∧ (∀ (data : SlideData) (pre post : List ImageRef) (bad : ImageRef),
        data.images = pre ++ bad :: post →
        _download_image env bad.src = none →
        mkSlide cfg env data
          = mkSlide cfg env ⟨data.title, data.body, pre ++ post,
              data.background_color⟩)
    ∧ (∀ (slides_html : List String) (metadata : Option Metadata),
        (env.checkCompliance "convert_html_to_pptx" slides_html.length
          (metadata.getD ⟨none, none, none⟩)).compliant = true →
        env.saveResult = .ok () →
        ∃ d, (convert_html_to_pptx cfg env slides_html metadata).1 = .success d
          ∧ d.slides_count = slides_html.length) := by
  refine ⟨?_, ?_, ?_⟩
  · intro url h
    rcases h with h | h | ⟨body, hb, hd⟩
    · rw [_download_image, h]
    · rw [_download_image, h]
    · rw [_download_image, hb]
      exact hd
  · intro data pre post bad him hdl
    rw [mkSlide, mkSlide]
    simp only [slideShapes, him, List.foldl_append, List.foldl_cons, hdl]
  · intro slides_html metadata hc hs
    exact ⟨_, by rw [convert_ok cfg env slides_html metadata hc hs], rfl⟩

/-- C3 witness: in a concrete environment whose network always fails,
the one bad image resolves to `None`, the slide renders as if without
it, and a one-slide conversion still succeeds with count 1. -/
theorem claim_c3_witness :
    _download_image envW "bad" = none
    ∧ mkSlide cfgW envW dataW = mkSlide cfgW envW ⟨"T", "B", [] ++ [], none⟩
    ∧ ∃ d, (convert_html_to_pptx cfgW envW ["<p>x</p>"] none).1 = .success d
        ∧ d.slides_count = 1 :=
  ⟨(claim_c3_image_failures_local cfgW envW).1 "bad" (Or.inl rfl),
   (claim_c3_image_failures_local cfgW envW).2.1 dataW [] [] ⟨"bad", "alt"⟩ rfl rfl,
   (claim_c3_image_failures_local cfgW envW).2.2 ["<p>x</p>"] none rfl rfl⟩

/-- Dropping empty texts after the title filter is the same as the
code's single combined filter. -/
theorem filter_nonempty_nontitle (M : List String) (title : String) :
    (M.filter (fun t => t ≠ title)).filter (fun t => t ≠ "")
      = M.filter (fun t => t ≠ "" ∧ t ≠ title) := by
  rw [List.filter_filter]
  apply List.filter_congr
  intro a _
  by_cases h1 : a = "" <;> by_cases h2 : a = title <;> simp [h1, h2]

/-- C4 counterexample: on `<h1>T</h1><p></p><p>B</p>` the code's body is
`"B"`, whereas the claim's body — excluding only elements whose text
equals the title — is `"\nB"` (the empty paragraph contributes an empty
segment); so the claim's body equation fails at this input. -/
theorem claim_c4_counterexample :
    (_parse_html_slide roots0).title = "T"
    ∧ (_parse_html_slide roots0).body = "B"
    ∧ specBody roots0 = "\nB"
    ∧ (_parse_html_slide roots0).body ≠ specBody roots0 := by
  refine ⟨rfl, rfl, rfl, ?_⟩
  rw [show (_parse_html_slide roots0).body = "B" from rfl,
      show specBody roots0 = "\nB" from rfl]
  decide

/-- C4 (amended): the title is the text of the first `h1`/`h2` found
depth-first in document order (empty when none exists), and the body is
the newline-join, in document order, of the trimmed texts of the body
selector elements, excluding elements whose text equals the title AND
elements whose trimmed text is empty. -/
theorem claim_c4_amended_parse_shape (roots : NodeList) :
    (_parse_html_slide roots).title = specTitle roots
    ∧ (_parse_html_slide roots).body = specBodyAmended roots := by
  constructor
  · exact (specTitle_eq_slideTitle roots).symm
  · rw [show (_parse_html_slide roots).body
        = String.intercalate "\n" (body_parts roots) from rfl]
    rw [specBodyAmended, body_parts_eq_filter, nonTitleTexts,
        filter_nonempty_nontitle]

/-- C10: a body-selector element whose trimmed text is empty contributes
nothing to the body: the collected parts are exactly the non-title texts
with empty texts dropped entirely, no part is the empty string, and the
joined body is the newline-join of those non-empty parts (so no empty
line originates from such an element). -/
theorem claim_c10_empty_text_skipped (roots : NodeList) :
    body_parts roots = (nonTitleTexts roots).filter (fun t => t ≠ "")
    ∧ "" ∉ body_parts roots
    ∧ (_parse_html_slide roots).body
        = String.intercalate "\n" ((nonTitleTexts roots).filter (fun t => t ≠ "")) := by
  have h : body_parts roots = (nonTitleTexts roots).filter (fun t => t ≠ "") := by
    rw [body_parts_eq_filter, nonTitleTexts, filter_nonempty_nontitle]
  refine ⟨h, ?_, ?_⟩
  · intro hmem
    rw [h] at hmem
    have := List.of_mem_filter hmem
    simp at this
  · rw [show (_parse_html_slide roots).body
        = String.intercalate "\n" (body_parts roots) from rfl, h]

/-- A hex digit's value is at most 15. -/
theorem hexVal_le_15 (c : Char) (h : isHexChar c = true) : hexVal c ≤ 15 := by
  simp only [isHexChar, Bool.or_eq_true, Bool.and_eq_true, decide_eq_true_eq] at h
  rcases h with (h1 | ⟨ha, hb⟩) | ⟨ha, hb⟩
  · rw [hexVal, if_pos h1, digitVal]
    rw [isDigitChar, Bool.and_eq_true, decide_eq_true_eq, decide_eq_true_eq] at h1
    obtain ⟨ha, hb⟩ := h1
    simp [Char.le_def] at ha hb
    have ha' : (48 : ℕ) ≤ c.toNat := ha
    have hb' : c.toNat ≤ 57 := hb
    have e0 : '0'.toNat = 48 := rfl
    omega
  · have ha0 := ha
    have hb0 := hb
    simp [Char.le_def] at ha hb
    have ha' : (97 : ℕ) ≤ c.toNat := ha
    have hb' : c.toNat ≤ 102 := hb
    have hd : isDigitChar c = false := by
      rw [isDigitChar]
      have h9 : decide (c ≤ '9') = false := by
        rw [decide_eq_false_iff_not]
        intro hle
        simp [Char.le_def] at hle
        have : c.toNat ≤ 57 := hle
        omega
      rw [h9, Bool.and_false]
    rw [hexVal, if_neg (by rw [hd]; exact Bool.false_ne_true), if_pos ⟨ha0, hb0⟩]
    have ea : 'a'.toNat = 97 := rfl
    omega
  · simp [Char.le_def] at ha hb
    have ha' : (65 : ℕ) ≤ c.toNat := ha
    have hb' : c.toNat ≤ 70 := hb
    have hd : isDigitChar c = false := by
      rw [isDigitChar]
      have h9 : decide (c ≤ '9') = false := by
        rw [decide_eq_false_iff_not]
        intro hle
        simp [Char.le_def] at hle
        have : c.toNat ≤ 57 := hle
        omega
      rw [h9, Bool.and_false]
    have haf : ¬ ('a' ≤ c ∧ c ≤ 'f') := by
      intro hcc
      obtain ⟨ha2, _⟩ := hcc
      simp [Char.le_def] at ha2
      have : (97 : ℕ) ≤ c.toNat := ha2
      omega
    rw [hexVal, if_neg (by rw [hd]; exact Bool.false_ne_true), if_neg haf]
    show c.toNat - 65 + 10 ≤ 15
    omega

/-- The three bytes of an accepted hex form lie in 0–255, so the
`RGBColor` constructor never raises on the hex branch. -/
theorem hexParse_components_le (l : List Char) (r g b : ℕ) (rest : List Char)
    (h : hexParse l = some ((r, g, b), rest)) : r ≤ 255 ∧ g ≤ 255 ∧ b ≤ 255 := by
  cases l with
  | nil => exact absurd h (by simp [hexParse])
  | cons c cs =>
    rw [hexParse] at h
    by_cases hc : c = '#'
    · rw [if_pos hc] at h
      split at h
      · split at h
        · next c1 c2 c3 c4 c5 c6 heq hall =>
          simp only [List.all_cons, List.all_nil, Bool.and_eq_true,
            Bool.and_true] at hall
          obtain ⟨e1, e2, e3, e4, e5, e6⟩ := hall
          have b1 := hexVal_le_15 c1 e1
          have b2 := hexVal_le_15 c2 e2
          have b3 := hexVal_le_15 c3 e3
          have b4 := hexVal_le_15 c4 e4
          have b5 := hexVal_le_15 c5 e5
          have b6 := hexVal_le_15 c6 e6
          simp only [Option.some.injEq, Prod.mk.injEq] at h
          obtain ⟨⟨hr, hg, hb⟩, _⟩ := h
          rw [← hr, ← hg, ← hb]
          omega
        · exact absurd h (by simp)
      · exact absurd h (by simp)
    · rw [if_neg hc] at h
      exact absurd h (by simp)

/-- C5 counterexample: the code's `re.match` is prefix-anchored, so
`"#FF8000zz"` — not one of the claim's three exact forms — still yields
a color where the reference yields none; and an out-of-range functional
form such as `"rgb(300, 1, 1)"` makes `RGBColor` raise `ValueError`
where the claim promises no color rather than an error. -/
theorem claim_c5_counterexample :
    _extract_rgb_color "#FF8000zz" = .ok (some ⟨255, 128, 0⟩)
    ∧ extractColorRef "#FF8000zz" = none
    ∧ _extract_rgb_color "#FF8000zz" ≠ .ok (extractColorRef "#FF8000zz")
    ∧ _extract_rgb_color "rgb(300, 1, 1)" = .error RGBColorValueError
    ∧ _extract_rgb_color "rgb(300, 1, 1)" ≠ .ok (extractColorRef "rgb(300, 1, 1)") := by
  refine ⟨rfl, rfl, ?_, rfl, ?_⟩
  · intro heq
    rw [show _extract_rgb_color "#FF8000zz" = .ok (some ⟨255, 128, 0⟩) from rfl,
        show extractColorRef "#FF8000zz" = none from rfl] at heq
    simp at heq
  · intro heq
    rw [show _extract_rgb_color "rgb(300, 1, 1)"
          = .error RGBColorValueError from rfl] at heq
    exact Except.noConfusion heq

/-- C5 (amended): `_extract_rgb_color` equals the reference definition
in which the functional and hex forms are matched as prefixes (trailing
characters permitted) and the `RGBColor` constructor validates the
functional form's components: every accepted functional form with
components in 0–255 returns exactly that triple, an accepted functional
form with an out-of-range component raises `ValueError` instead of
giving no color, every accepted hex form returns exactly its three
(inherently in-range) bytes, the hex/functional agreement and
named-table values of the claim hold, and the empty string yields no
color. -/
theorem claim_c5_amended_color_forms :
    (∀ s, _extract_rgb_color s = extractColorRefAmended s)
    ∧ (∀ (s : String) (r g b : ℕ) (rest : List Char),
        rgbParse s.data = some ((r, g, b), rest) →
        r ≤ 255 → g ≤ 255 → b ≤ 255 →
        _extract_rgb_color s = .ok (some ⟨r, g, b⟩))
    ∧ (∀ (s : String) (r g b : ℕ) (rest : List Char),
        rgbParse s.data = some ((r, g, b), rest) →
        ¬ (r ≤ 255 ∧ g ≤ 255 ∧ b ≤ 255) →
        _extract_rgb_color s = .error RGBColorValueError)
    ∧ (∀ (s : String) (r g b : ℕ) (rest : List Char),
        hexParse s.data = some ((r, g, b), rest) →
        _extract_rgb_color s = .ok (some ⟨r, g, b⟩))
    ∧ _extract_rgb_color "#FF8000" = _extract_rgb_color "rgb(255,128,0)"
    ∧ _extract_rgb_color "red" = .ok (some ⟨255, 0, 0⟩)
    ∧ _extract_rgb_color "gray" = .ok (some ⟨128, 128, 128⟩)
    ∧ _extract_rgb_color "grey" = _extract_rgb_color "gray"
    ∧ _extract_rgb_color "" = .ok none := by
  have hrgbne : ∀ (s : String) (p : (ℕ × ℕ × ℕ) × List Char),
      rgbParse s.data = some p → s ≠ "" := by
    intro s p h he
    rw [he, show ("" : String).data = [] from rfl,
        show rgbParse [] = none from rfl] at h
    exact Option.noConfusion h
  refine ⟨?_, ?_, ?_, ?_, rfl, rfl, rfl, rfl, rfl⟩
  · intro s
    by_cases hs : s = ""
    · rw [_extract_rgb_color, extractColorRefAmended, if_pos hs, if_pos hs]
    · rw [_extract_rgb_color, extractColorRefAmended, if_neg hs, if_neg hs]
      cases hr : rgbParse s.data with
      | some pr =>
        obtain ⟨⟨r, g, b⟩, rest⟩ := pr
        by_cases hrange : r ≤ 255 ∧ g ≤ 255 ∧ b ≤ 255
        · simp [RGBColor, hrange]
        · simp [RGBColor, hrange]
      | none =>
        cases hh : hexParse s.data with
        | some pr =>
          obtain ⟨⟨r, g, b⟩, rest⟩ := pr
          have hle := hexParse_components_le s.data r g b rest hh
          simp [RGBColor, hle.1, hle.2.1, hle.2.2]
        | none => rfl
  · intro s r g b rest h h1 h2 h3
    have hs : s ≠ "" := hrgbne s _ h
    simp only [_extract_rgb_color, if_neg hs, h]
    simp [RGBColor, h1, h2, h3]
  · intro s r g b rest h hout
    have hs : s ≠ "" := hrgbne s _ h
    simp only [_extract_rgb_color, if_neg hs, h]
    simp [RGBColor, hout]
  · intro s r g b rest h
    have hshape : ∃ tail, s.data = '#' :: tail := by
      cases hd : s.data with
      | nil =>
        rw [hd, show hexParse [] = none from rfl] at h
        exact Option.noConfusion h
      | cons c cs =>
        refine ⟨cs, ?_⟩
        rw [hd] at h
        by_cases hc : c = '#'
        · rw [hc]
        · rw [hexParse, if_neg hc] at h
          exact Option.noConfusion h
    obtain ⟨tail, hd⟩ := hshape
    have hs : s ≠ "" := by
      intro he
      rw [he] at hd
      exact List.noConfusion hd
    have hrgb : rgbParse s.data = none := by
      rw [hd]
      rfl
    have hle := hexParse_components_le s.data r g b rest h
    simp only [_extract_rgb_color, if_neg hs, hrgb, h]
    simp [RGBColor, hle.1, hle.2.1, hle.2.2]

/-- C5 witness: concrete strings exercising the in-range functional
form, the raising out-of-range functional form and the hex form. -/
theorem claim_c5_witness :
    _extract_rgb_color "rgb(4, 5, 6)" = .ok (some ⟨4, 5, 6⟩)
    ∧ _extract_rgb_color "rgb(300, 1, 1)" = .error RGBColorValueError
    ∧ _extract_rgb_color "#0a0B10" = .ok (some ⟨10, 11, 16⟩) :=
  ⟨claim_c5_amended_color_forms.2.1 "rgb(4, 5, 6)" 4 5 6 [] rfl
     (by decide) (by decide) (by decide),
   claim_c5_amended_color_forms.2.2.1 "rgb(300, 1, 1)" 300 1 1 [] rfl (by decide),
   claim_c5_amended_color_forms.2.2.2.1 "#0a0B10" 10 11 16 [] rfl⟩

/-- C6: a resolved image with positive pixel sizes is fitted
aspect-preservingly — landscape images clamp the width to
`min(maxImageWidth, canvasWidth - 1)` and derive the height, others
clamp the height to `min(maxImageHeight, canvasHeight - 3)` and derive
the width — and is placed horizontally centered, anchored `0.5` above
the bottom edge; the rendered slide carries a picture with exactly this
geometry. -/
theorem claim_c6_image_fit (cfg : Config) (w h : ℕ) (hw : 0 < w) (hh : 0 < h) :
    ((w : ℚ) / (h : ℚ) > 1 →
      (imageShape cfg w h).width = min cfg.max_image_width (cfg.slide_width - Inches 1)
      ∧ (imageShape cfg w h).height = (imageShape cfg w h).width / ((w : ℚ) / (h : ℚ)))
    ∧ (¬ ((w : ℚ) / (h : ℚ) > 1) →
      (imageShape cfg w h).height = min cfg.max_image_height (cfg.slide_height - Inches 3)
      ∧ (imageShape cfg w h).width = (imageShape cfg w h).height * ((w : ℚ) / (h : ℚ)))
    ∧ (imageShape cfg w h).left = (cfg.slide_width - (imageShape cfg w h).width) / 2
    ∧ (imageShape cfg w h).top
        = cfg.slide_height - (imageShape cfg w h).height - Inches (1/2)
    ∧ (∀ (env : Env) (data : SlideData) (ref : ImageRef),
        data.images = [ref] →
        _download_image env ref.src = some ⟨w, h⟩ →
        Shape.picture (imageShape cfg w h) ∈ (mkSlide cfg env data).shapes) := by
  refine ⟨?_, ?_, ?_, ?_, ?_⟩
  · intro har
    simp [imageShape, har]
  · intro har
    simp [imageShape, har]
  · by_cases har : (w : ℚ) / (h : ℚ) > 1
    · simp only [imageShape, if_pos har]
    · simp only [imageShape, if_neg har]
  · by_cases har : (w : ℚ) / (h : ℚ) > 1
    · simp only [imageShape, if_pos har]
    · simp only [imageShape, if_neg har]
  · intro env data ref him hdl
    simp only [mkSlide, slideShapes, him, List.foldl_cons, List.foldl_nil, hdl]
    simp

/-- C6 witness: a 300×200 landscape image under the default
configuration. -/
theorem claim_c6_witness :
    0 < 300 ∧ 0 < 200
    ∧ (((300 : ℕ) : ℚ) / ((200 : ℕ) : ℚ) > 1 →
        (imageShape cfgW 300 200).width
          = min cfgW.max_image_width (cfgW.slide_width - Inches 1)
        ∧ (imageShape cfgW 300 200).height
          = (imageShape cfgW 300 200).width / (((300 : ℕ) : ℚ) / ((200 : ℕ) : ℚ)))
    ∧ (imageShape cfgW 300 200).left
        = (cfgW.slide_width - (imageShape cfgW 300 200).width) / 2
    ∧ (imageShape cfgW 300 200).top
        = cfgW.slide_height - (imageShape cfgW 300 200).height - Inches (1/2) :=
  ⟨by decide, by decide,
   (claim_c6_image_fit cfgW 300 200 (by decide) (by decide)).1,
   (claim_c6_image_fit cfgW 300 200 (by decide) (by decide)).2.2.1,
   (claim_c6_image_fit cfgW 300 200 (by decide) (by decide)).2.2.2.1⟩

/-- A successfully constructed configuration reads every dimension field
through `_parse_dimension` of its own key. -/
theorem serviceInit_ok_fields (ev : EnvVars) (cfg : Config)
    (h : serviceInit ev = .ok cfg) :
    cfg.slide_width = _parse_dimension (envGetD ev "PPTX_SLIDE_WIDTH" "10")
    ∧ cfg.slide_height = _parse_dimension (envGetD ev "PPTX_SLIDE_HEIGHT" "7.5")
    ∧ cfg.max_image_width = _parse_dimension (envGetD ev "PPTX_MAX_IMAGE_WIDTH" "8")
    ∧ cfg.max_image_height = _parse_dimension (envGetD ev "PPTX_MAX_IMAGE_HEIGHT" "5") := by
  unfold serviceInit at h
  cases h1 : pyIntE (envGetD ev "PPTX_TITLE_FONT_SIZE" "44") with
  | error e =>
    simp only [h1] at h
    exact Except.noConfusion h
  | ok v1 =>
    cases h2 : pyIntE (envGetD ev "PPTX_BODY_FONT_SIZE" "28") with
    | error e =>
      simp only [h1, h2] at h
      exact Except.noConfusion h
    | ok v2 =>
      cases h3 : pyIntE (envGetD ev "PPTX_IMAGE_QUALITY" "95") with
      | error e =>
        simp only [h1, h2, h3] at h
        exact Except.noConfusion h
      | ok v3 =>
        cases h4 : pyIntE (envGetD ev "HTTP_TIMEOUT" "30") with
        | error e =>
          simp only [h1, h2, h3, h4] at h
          exact Except.noConfusion h
        | ok v4 =>
          simp only [h1, h2, h3, h4, Except.ok.injEq] at h
          rw [← h]
          exact ⟨rfl, rfl, rfl, rfl⟩

/-- A malformed value in any of the four integer keys makes construction
raise `ValueError`. -/
theorem serviceInit_error_of_int_fail (ev : EnvVars)
    (h : pyIntE (envGetD ev "PPTX_TITLE_FONT_SIZE" "44") = .error pyValueError
       ∨ pyIntE (envGetD ev "PPTX_BODY_FONT_SIZE" "28") = .error pyValueError
       ∨ pyIntE (envGetD ev "PPTX_IMAGE_QUALITY" "95") = .error pyValueError
       ∨ pyIntE (envGetD ev "HTTP_TIMEOUT" "30") = .error pyValueError) :
    serviceInit ev = .error pyValueError := by
  have herr : ∀ (s : String) (e : PyExc), pyIntE s = .error e → e = pyValueError := by
    intro s e he
    unfold pyIntE at he
    cases hp : pyInt? s with
    | some n => rw [hp] at he; exact Except.noConfusion he
    | none =>
      rw [hp] at he
      cases he
      rfl
  unfold serviceInit
  cases h1 : pyIntE (envGetD ev "PPTX_TITLE_FONT_SIZE" "44") with
  | error e => simp only [h1]; rw [herr _ _ h1]
  | ok v1 =>
    cases h2 : pyIntE (envGetD ev "PPTX_BODY_FONT_SIZE" "28") with
    | error e => simp only [h1, h2]; rw [herr _ _ h2]
    | ok v2 =>
      cases h3 : pyIntE (envGetD ev "PPTX_IMAGE_QUALITY" "95") with
      | error e => simp only [h1, h2, h3]; rw [herr _ _ h3]
      | ok v3 =>
        cases h4 : pyIntE (envGetD ev "HTTP_TIMEOUT" "30") with
        | error e => simp only [h1, h2, h3, h4]; rw [herr _ _ h4]
        | ok v4 =>
          rcases h with h | h | h | h
          · rw [h1] at h; exact Except.noConfusion h
          · rw [h2] at h; exact Except.noConfusion h
          · rw [h3] at h; exact Except.noConfusion h
          · rw [h4] at h; exact Except.noConfusion h

/-- C7 counterexample: a malformed slide-height value makes construction
succeed with height `Inches 10` — the fixed `_parse_dimension` fallback —
not the key's documented default of `7.5`. -/
theorem claim_c7_counterexample :
    (serviceInit envVarsBadHeight).map (fun c => c.slide_height) = .ok (Inches 10)
    ∧ Inches 10 ≠ Inches (15/2) := by
  refine ⟨rfl, ?_⟩
  rw [Inches, Inches]
  norm_num

/-- C7 (amended): a malformed value in a dimension key (slide
width/height, max image width/height) falls back to the fixed
`Inches 10` — not to that key's documented default — while a malformed
value in an integer key (title/body font size, image quality, timeout)
raises `ValueError` and fails engine construction instead of falling
back. -/
theorem claim_c7_amended_config_fallback :
    (∀ (ev : EnvVars) (s : String), pyFloat? s = none →
      (∀ cfg, serviceInit (updateEv ev "PPTX_SLIDE_WIDTH" s) = .ok cfg →
        cfg.slide_width = Inches 10)
      ∧ (∀ cfg, serviceInit (updateEv ev "PPTX_SLIDE_HEIGHT" s) = .ok cfg →
        cfg.slide_height = Inches 10)
      ∧ (∀ cfg, serviceInit (updateEv ev "PPTX_MAX_IMAGE_WIDTH" s) = .ok cfg →
        cfg.max_image_width = Inches 10)
      ∧ (∀ cfg, serviceInit (updateEv ev "PPTX_MAX_IMAGE_HEIGHT" s) = .ok cfg →
        cfg.max_image_height = Inches 10))
    ∧ (∀ (ev : EnvVars) (s : String), pyInt? s = none →
      serviceInit (updateEv ev "PPTX_TITLE_FONT_SIZE" s) = .error pyValueError
      ∧ serviceInit (updateEv ev "PPTX_BODY_FONT_SIZE" s) = .error pyValueError
      ∧ serviceInit (updateEv ev "PPTX_IMAGE_QUALITY" s) = .error pyValueError
      ∧ serviceInit (updateEv ev "HTTP_TIMEOUT" s) = .error pyValueError) := by
  have hget : ∀ (ev : EnvVars) (k v d : String), envGetD (updateEv ev k v) k d = v := by
    intro ev k v d
    simp [envGetD, updateEv]
  have hdim : ∀ s : String, pyFloat? s = none → _parse_dimension s = Inches 10 := by
    intro s hs
    simp only [_parse_dimension, hs]
  have hint : ∀ s : String, pyInt? s = none → pyIntE s = .error pyValueError := by
    intro s hs
    simp only [pyIntE, hs]
  constructor
  · intro ev s hs
    refine ⟨?_, ?_, ?_, ?_⟩
    · intro cfg hok
      rw [(serviceInit_ok_fields _ _ hok).1, hget, hdim s hs]
    · intro cfg hok
      rw [(serviceInit_ok_fields _ _ hok).2.1, hget, hdim s hs]
    · intro cfg hok
      rw [(serviceInit_ok_fields _ _ hok).2.2.1, hget, hdim s hs]
    · intro cfg hok
      rw [(serviceInit_ok_fields _ _ hok).2.2.2, hget, hdim s hs]
  · intro ev s hs
    refine ⟨?_, ?_, ?_, ?_⟩
    · exact serviceInit_error_of_int_fail _ (Or.inl (by rw [hget, hint s hs]))
    · exact serviceInit_error_of_int_fail _ (Or.inr (Or.inl (by rw [hget, hint s hs])))
    · exact serviceInit_error_of_int_fail _
        (Or.inr (Or.inr (Or.inl (by rw [hget, hint s hs]))))
    · exact serviceInit_error_of_int_fail _
        (Or.inr (Or.inr (Or.inr (by rw [hget, hint s hs]))))

/-- C7 witness: the malformed value `"abc"` exercises both halves — a
dimension key falls back to `Inches 10`, an integer key fails
construction. -/
theorem claim_c7_witness :
    pyFloat? "abc" = none ∧ pyInt? "abc" = none
    ∧ (∀ cfg, serviceInit (updateEv (fun _ => none) "PPTX_SLIDE_HEIGHT" "abc") = .ok cfg →
        cfg.slide_height = Inches 10)
    ∧ serviceInit (updateEv (fun _ => none) "PPTX_TITLE_FONT_SIZE" "abc")
        = .error pyValueError :=
  ⟨rfl, rfl,
   ((claim_c7_amended_config_fallback.1 (fun _ => none) "abc" rfl).2.1),
   ((claim_c7_amended_config_fallback.2 (fun _ => none) "abc" rfl).1)⟩

/-- C8: when the gate passes but serialization raises, the result is a
failure with code `CONVERSION_ERROR` carrying the exception's message
and its type name in the details, and no success payload (no document
data) is returned. -/
theorem claim_c8_conversion_error (cfg : Config) (env : Env)
    (slides_html : List String) (metadata : Option Metadata) (e : PyExc)
    (hc : (env.checkCompliance "convert_html_to_pptx" slides_html.length
            (metadata.getD ⟨none, none, none⟩)).compliant = true)
    (hs : env.saveResult = .error e) :
    (convert_html_to_pptx cfg env slides_html metadata).1
      = .failure ⟨e.message, "CONVERSION_ERROR", .exception_type e.typeName⟩
    ∧ ∀ d, (convert_html_to_pptx cfg env slides_html metadata).1 ≠ .success d := by
  have h1 : (convert_html_to_pptx cfg env slides_html metadata).1
      = .failure ⟨e.message, "CONVERSION_ERROR", .exception_type e.typeName⟩ := by
    simp [convert_html_to_pptx, hc, hs]
  refine ⟨h1, ?_⟩
  intro d hd
  rw [h1] at hd
  exact ConvResult.noConfusion hd

/-- C8 witness: a concrete raising serializer produces the classified
conversion failure. -/
theorem claim_c8_witness :
    ((envErr.checkCompliance "convert_html_to_pptx"
        (["<p>x</p>"] : List String).length
        ((none : Option Metadata).getD ⟨none, none, none⟩)).compliant = true)
    ∧ envErr.saveResult = .error excW
    ∧ (convert_html_to_pptx cfgW envErr ["<p>x</p>"] none).1
        = .failure ⟨excW.message, "CONVERSION_ERROR", .exception_type excW.typeName⟩
    ∧ ∀ d, (convert_html_to_pptx cfgW envErr ["<p>x</p>"] none).1 ≠ .success d :=
  ⟨rfl, rfl,
   (claim_c8_conversion_error cfgW envErr ["<p>x</p>"] none excW rfl rfl).1,
   (claim_c8_conversion_error cfgW envErr ["<p>x</p>"] none excW rfl rfl).2⟩

/-- C9 counterexample: a metadata title that is set to the empty string
is *not* applied verbatim — Python truthiness skips it, so the produced
document's title stays unset instead of becoming the empty string. -/
theorem claim_c9_counterexample :
    (buildDocument cfgW envW [] (some ⟨some "", none, none⟩)).core_properties.title
      = none
    ∧ (buildDocument cfgW envW [] (some ⟨some "", none, none⟩)).core_properties.title
      ≠ some "" := by
  refine ⟨rfl, ?_⟩
  rw [show (buildDocument cfgW envW [] (some ⟨some "", none, none⟩)).core_properties.title
      = none from rfl]
  simp

/-- C9 (amended): each metadata field set to a *non-empty* string is
applied verbatim to the document's core properties; a field that is
absent — or set to the empty string, which Python truthiness treats as
absent — is individually skipped and left unset; each field is handled
independently of the others. -/
theorem claim_c9_amended_metadata_fields (cfg : Config) (env : Env)
    (slides_html : List String) (metadata : Option Metadata) :
    (∀ t, (metadata.getD ⟨none, none, none⟩).title = some t → t ≠ "" →
      (buildDocument cfg env slides_html metadata).core_properties.title = some t)
    ∧ ((metadata.getD ⟨none, none, none⟩).title = none →
      (buildDocument cfg env slides_html metadata).core_properties.title = none)
    ∧ ((metadata.getD ⟨none, none, none⟩).title = some "" →
      (buildDocument cfg env slides_html metadata).core_properties.title = none)
    ∧ (∀ t, (metadata.getD ⟨none, none, none⟩).author = some t → t ≠ "" →
      (buildDocument cfg env slides_html metadata).core_properties.author = some t)
    ∧ ((metadata.getD ⟨none, none, none⟩).author = none →
      (buildDocument cfg env slides_html metadata).core_properties.author = none)
    ∧ ((metadata.getD ⟨none, none, none⟩).author = some "" →
      (buildDocument cfg env slides_html metadata).core_properties.author = none)
    ∧ (∀ t, (metadata.getD ⟨none, none, none⟩).subject = some t → t ≠ "" →
      (buildDocument cfg env slides_html metadata).core_properties.subject = some t)
    ∧ ((metadata.getD ⟨none, none, none⟩).subject = none →
      (buildDocument cfg env slides_html metadata).core_properties.subject = none)
    ∧ ((metadata.getD ⟨none, none, none⟩).subject = some "" →
      (buildDocument cfg env slides_html metadata).core_properties.subject = none) := by
  have hcore := buildDocument_core cfg env slides_html metadata
  refine ⟨?_, ?_, ?_, ?_, ?_, ?_, ?_, ?_, ?_⟩
  · intro t h ht
    rw [hcore]
    simp [appliedField, h, ht]
  · intro h
    rw [hcore]
    simp [appliedField, h]
  · intro h
    rw [hcore]
    simp [appliedField, h]
  · intro t h ht
    rw [hcore]
    simp [appliedField, h, ht]
  · intro h
    rw [hcore]
    simp [appliedField, h]
  · intro h
    rw [hcore]
    simp [appliedField, h]
  · intro t h ht
    rw [hcore]
    simp [appliedField, h, ht]
  · intro h
    rw [hcore]
    simp [appliedField, h]
  · intro h
    rw [hcore]
    simp [appliedField, h]

/-- C9 witness: a non-empty title is applied verbatim while an absent
author and an empty-string subject are left unset, independently. -/
theorem claim_c9_witness :
    ((some (⟨some "T", none, some ""⟩ : Metadata)).getD ⟨none, none, none⟩).title
      = some "T"
    ∧ (buildDocument cfgW envW [] (some ⟨some "T", none, some ""⟩)).core_properties.title
      = some "T"
    ∧ (buildDocument cfgW envW [] (some ⟨some "T", none, some ""⟩)).core_properties.author
      = none
    ∧ (buildDocument cfgW envW [] (some ⟨some "T", none, some ""⟩)).core_properties.subject
      = none :=
  ⟨rfl,
   (claim_c9_amended_metadata_fields cfgW envW [] (some ⟨some "T", none, some ""⟩)).1
     "T" rfl (by decide),
   (claim_c9_amended_metadata_fields cfgW envW [] (some ⟨some "T", none, some ""⟩)).2.2.2.2.1
     rfl,
   (claim_c9_amended_metadata_fields cfgW envW [] (some ⟨some "T", none, some ""⟩)).2.2.2.2.2.2.2.2
     rfl⟩

end UFiT
